import Mathlib

/-!
Verification of the healthwatch-pipeline core: a shallow embedding of the
extraction client (`src/extract/cdc_api_client.py`), the warehouse loader
(`src/load/duckdb_loader.py`) and the quality-check engine
(`data_quality/quality_checks.py`), with theorems settling the claims of the
natural-language specification against the code.

Machine integers are modelled as `Nat`/`Int`; Python `datetime` values are
modelled as integer seconds; `float` arithmetic on durations is modelled
exactly over `ℚ`; fallible Python code is modelled with `Except`.
-/

namespace HealthWatch

namespace Extract

/-! Embedding of `PLACESClient.fetch_county_data` (cdc_api_client.py lines
118-147).  The pagination loop issues requests at offsets 0, limit, 2*limit,
…; an honest Socrata API answers the request at a given offset with
`data[offset : offset+limit]`, so the loop state is the remaining suffix of
the data.  The pair returned is (all_records, number of GET requests issued).

The Python loop body is:
  records = GET(offset);  if not records: break;
  all_records.extend(records);  if len(records) < limit: break;
  offset += limit
-/

def fetchLoop (limit : Nat) (rest : List α) : List α × Nat :=
  if _hpe : (rest.take limit).length = 0 then
    ([], 1)
  else if _hlt : (rest.take limit).length < limit then
    (rest.take limit, 1)
  else
    let next := fetchLoop limit (rest.drop limit)
    (rest.take limit ++ next.1, next.2 + 1)
termination_by rest.length
decreasing_by
  simp only [List.length_drop]
  simp only [List.length_take] at _hpe _hlt
  omega

/-- Result of `fetch_county_data`: the accumulated records and the number of
page requests issued against the API. -/
structure FetchResult (α : Type) where
  records : List α
  requests : Nat
deriving DecidableEq

/-- Embedding of `fetch_county_data` run against an honest paginated API
serving `data` (the per-row DataFrame conversion and constant metadata
columns are modelled at the `run_extraction` boundary). -/
def fetch_county_data (limit : Nat) (data : List α) : FetchResult α :=
  ⟨(fetchLoop limit data).1, (fetchLoop limit data).2⟩

/-- Number of non-empty pages an honest API must serve to exhaust `n`
records at page size `limit`: the ceiling of `n / limit`. -/
def pagesNeeded (limit n : Nat) : Nat := (n + limit - 1) / limit

/-! Embedding of the failure behaviour of the extraction pipeline
(`run_extraction`, cdc_api_client.py lines 195-221).  Here the API is a
scripted sequence of page responses: response k answers the request issued
at offset `k * limit`, and is either a page of records or a terminal request
failure (a `requests.RequestException` surfacing once the configured
retries of the session are exhausted).  The loop of `fetch_county_data`
consumes the
script in order, propagating a failure (the `except` clause at lines 145-147
logs and re-raises). -/

inductive PageResp (α : Type) where
  | page (records : List α)
  | failure (msg : String)
deriving DecidableEq

/-- The pagination loop of `fetch_county_data` run against a scripted API:
a response past the end of the script is the empty page.  Returns the
accumulated records, or the first request failure encountered. -/
def fetchLoopScripted (limit : Nat) : List (PageResp α) → Except String (List α)
  | [] => .ok []
  | .failure msg :: _ => .error msg
  | .page records :: rest =>
    if records.length = 0 then .ok []
    else if records.length < limit then .ok records
    else (fetchLoopScripted limit rest).map (fun tail => records ++ tail)

/-- One row of the DataFrame built by `fetch_county_data` after the loop:
the raw record plus the constant metadata columns added at lines 154-157. -/
structure ExtractedRow (α : Type) where
  raw : α
  extracted_at : Int
  source : String
  dataset_id : String
deriving DecidableEq

/-- DataFrame construction and metadata attachment of `fetch_county_data`
(lines 152-159), on top of the scripted pagination loop. -/
def fetchCountyDf (limit : Nat) (responses : List (PageResp α)) (now : Int) :
    Except String (List (ExtractedRow α)) :=
  (fetchLoopScripted limit responses).map
    (fun records => records.map (fun r => ⟨r, now, "CDC_PLACES", "d3i6-k6z5"⟩))

/-- A Python `datetime` broken into calendar fields, as consumed by
`strftime` in `save_raw_data`. -/
structure PyDateTime where
  year : Nat
  month : Nat
  day : Nat
  hour : Nat
  minute : Nat
  second : Nat
deriving DecidableEq

def pad2 (n : Nat) : String :=
  if n < 10 then "0" ++ toString n else toString n

def pad4 (n : Nat) : String :=
  if n < 10 then "000" ++ toString n
  else if n < 100 then "00" ++ toString n
  else if n < 1000 then "0" ++ toString n
  else toString n

/-- The `timestamp.strftime` format string used at line 183 of
cdc_api_client.py. -/
def strftimeYmdHMS (t : PyDateTime) : String :=
  pad4 t.year ++ pad2 t.month ++ pad2 t.day ++ "_" ++
    pad2 t.hour ++ pad2 t.minute ++ pad2 t.second

/-- The snapshot filename derived deterministically from the timestamp
(line 183). -/
def rawFilename (t : PyDateTime) : String :=
  "places_county_" ++ strftimeYmdHMS t ++ ".json"

/-- The raw-data directory modelled as a mapping from filename to the record
sequence stored in the file (the JSON round-trips losslessly). -/
def FS (α : Type) : Type := List (String × List (ExtractedRow α))

/-- Write a file: the store maps `name` to `content` afterwards, replacing
any previous binding. -/
def setFile (fs : FS α) (name : String) (content : List (ExtractedRow α)) :
    FS α :=
  (name, content) :: fs.filter (fun p => p.1 ≠ name)

/-- Embedding of `save_raw_data` (cdc_api_client.py lines 161-193): derive
the filename from the timestamp, then `df.to_json(filepath, ...)`.  There is
no existence check before the write; `to_json` replaces the file at
`filepath` whatever was there.  Directory creation and environmental
`IOError` are outside the model, so the write itself always succeeds and the
path is returned. -/
def save_raw_data (fs : FS α) (df : List (ExtractedRow α)) (ts : PyDateTime) :
    FS α × Except String String :=
  let filepath := rawFilename ts
  (setFile fs filepath df, .ok filepath)

/-- Embedding of `run_extraction` (cdc_api_client.py lines 195-221): fetch
everything, then save; the `except` clause logs and re-raises, so a fetch
failure propagates and `save_raw_data` is never reached. -/
def run_extraction (limit : Nat) (responses : List (PageResp α)) (now : Int)
    (ts : PyDateTime) (fs : FS α) : FS α × Except String String :=
  match fetchCountyDf limit responses now with
  | .error e => (fs, .error e)
  | .ok df => save_raw_data fs df ts

end Extract

namespace Loader

/-! Embedding of `DuckDBLoader` (src/load/duckdb_loader.py).  A scalar cell
of a raw record is a string, a number or null; a record maps field names to
cells; the warehouse holds the single monitored table `raw.places_county`
with its column list and rows. -/

inductive JVal where
  | s (x : String)
  | n (x : Int)
  | null
deriving DecidableEq

/-- One raw record as parsed from a snapshot file: field name to value, in
file order. -/
abbrev RawRecord : Type := List (String × JVal)

/-- The parsed JSON content of one file under `data/raw`, shaped as
`load_json_file` distinguishes at lines 91-96: a list of records, a dict
with a `data` key, any other single dict, or undecodable JSON (for which
`json.load` raises). -/
inductive RawJson where
  | arr (records : List RawRecord)
  | dataObj (records : List RawRecord)
  | scalarObj (r : RawRecord)
  | malformed
deriving DecidableEq

/-- Errors surfaced by the loader, abstracting the Python exception whose
string `load_json_file` inspects: only the missing-table error message
contains "does not exist". -/
inductive LoadErr where
  | tableNotExist
  | insertMismatch
  | jsonDecode
deriving DecidableEq

/-- String test performed at line 108 of duckdb_loader.py: whether the
error message contains "does not exist". -/
def mentionsDoesNotExist : LoadErr → Bool
  | .tableNotExist => true
  | .insertMismatch => false
  | .jsonDecode => false

/-- Lines 87-96: `json.load` then the shape dispatch into a DataFrame row
list.  `json.load` raising on undecodable content is the error case. -/
def parseSnapshot : RawJson → Except LoadErr (List RawRecord)
  | .arr records => .ok records
  | .dataObj records => .ok records
  | .scalarObj r => .ok [r]
  | .malformed => .error .jsonDecode

/-- First-occurrence-ordered field names of a record list: the column list
`pd.DataFrame` infers from a list of dicts. -/
def dedupFirst : List String → List String
  | [] => []
  | k :: ks => k :: (dedupFirst ks).filter (fun x => x ≠ k)

def dfColumns (records : List RawRecord) : List String :=
  dedupFirst ((records.map (fun r => r.map Prod.fst)).flatten)

/-- The in-memory DataFrame: inferred column list plus the rows. -/
structure Df where
  cols : List String
  rows : List RawRecord
deriving DecidableEq

def mkDf (records : List RawRecord) : Df := ⟨dfColumns records, records⟩

/-- Column assignment `df[name] = v` (lines 99-100): replaces the cells of the
column when the column exists, otherwise appends it. -/
def setField (r : RawRecord) (name : String) (v : JVal) : RawRecord :=
  if name ∈ r.map Prod.fst then
    r.map (fun p => if p.1 = name then (name, v) else p)
  else r ++ [(name, v)]

def addColumn (df : Df) (name : String) (v : JVal) : Df :=
  ⟨if name ∈ df.cols then df.cols else df.cols ++ [name],
   df.rows.map (fun r => setField r name v)⟩

/-- The warehouse as the loader sees it: existence, column list and rows of
`raw.places_county`. -/
structure LWarehouse where
  tableExists : Bool
  tableCols : List String
  tableRows : List RawRecord
deriving DecidableEq

/-- `INSERT INTO raw.places_county SELECT * FROM df` (line 105): fails with
the missing-table error when the table does not exist, appends when the
DataFrame schema lines up with the table schema, and fails with a binder
error (whose message does not contain "does not exist") otherwise. -/
def insertInto (w : LWarehouse) (df : Df) : Except LoadErr LWarehouse :=
  if w.tableExists = false then .error .tableNotExist
  else if df.cols = w.tableCols then
    .ok ⟨true, w.tableCols, w.tableRows ++ df.rows⟩
  else .error .insertMismatch

/-- Embedding of `load_json_file` (duckdb_loader.py lines 68-117) on a file
that exists (the loader is handed files found by globbing, so the
`filepath.exists()` guard at line 81 has already passed): parse, attach the
`loaded_at` and `source_file` metadata columns, try the insert, and on the
missing-table error create the table from this very DataFrame
(`CREATE TABLE raw.places_county AS SELECT * FROM df`, line 109); any other
error is re-raised, and the outer handler at lines 115-117 logs and
re-raises. -/
def load_json_file (w : LWarehouse) (content : RawJson) (now : Int)
    (srcFile : String) : Except LoadErr LWarehouse :=
  match parseSnapshot content with
  | .error e => .error e
  | .ok records =>
    let df := addColumn (addColumn (mkDf records) "loaded_at" (.n now))
      "source_file" (.s srcFile)
    match insertInto w df with
    | .ok w2 => .ok w2
    | .error e =>
      if mentionsDoesNotExist e then .ok ⟨true, df.cols, df.rows⟩
      else .error e

/-- One file of the raw directory. -/
structure SnapFile where
  name : String
  content : RawJson
deriving DecidableEq

/-- Character-list test for "pat is a leading segment of cs". -/
def startsWithChars : List Char → List Char → Bool
  | [], _ => true
  | _ :: _, [] => false
  | p :: ps, c :: cs => p = c && startsWithChars ps cs

/-- Character-list substring occurrence test. -/
def hasSubstrChars (pat : List Char) : List Char → Bool
  | [] => startsWithChars pat []
  | c :: cs => startsWithChars pat (c :: cs) || hasSubstrChars pat cs

/-- The filename-convention test `"places" in filepath.name` (line 137). -/
def containsPlaces (s : String) : Bool :=
  hasSubstrChars "places".data s.data

/-- Per-file history entry recorded by the directory loader (standing for
its log lines). -/
inductive Outcome where
  | loaded (name : String)
  | failed (name : String)
  | skipped (name : String)
deriving DecidableEq

/-- The loop body of `load_raw_directory` (lines 134-145) for one file: the
whole classification-plus-load is inside `try`, and the `except` clause logs
and `continue`s, leaving the warehouse untouched for that file. -/
def processFile (w : LWarehouse) (f : SnapFile) (now : Int) :
    LWarehouse × Outcome :=
  if containsPlaces f.name then
    match load_json_file w f.content now f.name with
    | .ok w2 => (w2, .loaded f.name)
    | .error _ => (w, .failed f.name)
  else (w, .skipped f.name)

/-- Embedding of `load_raw_directory` (duckdb_loader.py lines 119-145) over
the globbed file list: fold the per-file body over the files in order,
collecting one outcome per file. -/
def load_raw_directory (w : LWarehouse) (files : List SnapFile) (now : Int) :
    LWarehouse × List Outcome :=
  match files with
  | [] => (w, [])
  | f :: fs =>
    let step := processFile w f now
    let tail := load_raw_directory step.1 fs now
    (tail.1, step.2 :: tail.2)

/-- The `SELECT COUNT(*) FROM raw.places_county` query issued by
`get_record_counts`: fails when the table does not exist. -/
def countQuery (w : LWarehouse) : Except LoadErr Nat :=
  if w.tableExists then .ok w.tableRows.length else .error .tableNotExist

/-- Embedding of `get_record_counts` (duckdb_loader.py lines 147-164):
`counts = {}`, then the count query inside `try`, whose `except` clause only
logs; the dict accumulated so far is returned either way. -/
def get_record_counts (w : LWarehouse) : Except LoadErr (List (String × Nat)) :=
  match countQuery w with
  | .ok n => .ok [("places_county", n)]
  | .error _ => .ok []

end Loader

namespace Quality

/-! Embedding of `DataQualityChecker` (data_quality/quality_checks.py).
Only the columns the checks query are modelled; `datetime` values are
integer seconds; the duration arithmetic that Python performs on floats
(`total_seconds() / 3600`, `round(..., 2)`) is carried out exactly over ℚ. -/

/-- One row of `raw.places_county`, restricted to the columns the checks
touch; each is nullable. -/
structure QRow where
  stateabbr : Option String
  countyname : Option String
  diabetes_crudeprev : Option String
  loaded_at : Option Int
deriving DecidableEq

/-- The warehouse as the checker sees it: whether `raw.places_county`
exists, and its rows. -/
structure Warehouse where
  tableExists : Bool
  rows : List QRow
deriving DecidableEq

inductive SqlErr where
  | tableMissing
deriving DecidableEq

/-- The exceptions that can reach the `except Exception` handlers of the
checker. -/
inductive PyErr where
  | sql (e : SqlErr)
  | nameUndefined (ident : String)
  | valueEmptyMax
deriving DecidableEq

def errMessage : PyErr → String
  | .sql _ => "Catalog Error: Table with name places_county does not exist"
  | .nameUndefined ident => "NameError: name " ++ ident ++ " is not defined"
  | .valueEmptyMax => "ValueError: max() arg is an empty sequence"

inductive Status where
  | PASS
  | FAIL
  | ERROR
deriving DecidableEq

/-- A value appearing in the detail map of a result (number formatting of the
Python repr is abstracted to `toString`). -/
inductive PyVal where
  | i (n : Int)
  | s (t : String)
  | q (x : ℚ)
deriving DecidableEq

/-- One check result dict: `name`, `status`, and the remaining detail
entries. -/
structure CheckResult where
  name : String
  status : Status
  details : List (String × PyVal)
deriving DecidableEq

/-- The mutable `checks_passed` / `checks_failed` counters of the checker
instance (initialised to 0 in `__init__`). -/
structure Counters where
  passed : Nat
  failed : Nat
deriving DecidableEq

/-- `SELECT MAX(loaded_at) FROM raw.places_county` (lines 55-59): one row
whose single cell is the maximum over non-null `loaded_at`, NULL when there
is none; raises when the table does not exist. -/
def qMaxLoadedAt (w : Warehouse) : Except SqlErr (Option Int) :=
  if w.tableExists then .ok (w.rows.filterMap QRow.loaded_at).max?
  else .error .tableMissing

/-- `SELECT COUNT(*) FROM raw.places_county` (lines 98-100). -/
def qCountRows (w : Warehouse) : Except SqlErr Nat :=
  if w.tableExists then .ok w.rows.length else .error .tableMissing

/-- The three conditional-sum aggregates of `check_null_values` (lines
132-140): each SUM is NULL on an empty table and a count otherwise. -/
def qNullSums (w : Warehouse) :
    Except SqlErr (Option Nat × Option Nat × Option Nat) :=
  if w.tableExists then
    if w.rows.length = 0 then .ok (none, none, none)
    else
      .ok (some (w.rows.countP (fun r => r.stateabbr.isNone)),
           some (w.rows.countP (fun r => r.countyname.isNone)),
           some (w.rows.countP (fun r =>
             r.diabetes_crudeprev.isNone || (r.diabetes_crudeprev == some ""))))
  else .error .tableMissing

/-- `DATE(loaded_at)`: the calendar day of a timestamp in seconds. -/
def pyDate (t : Int) : Int := Int.fdiv t 86400

/-- The MIN/MAX/COUNT-DISTINCT aggregate of `check_date_ranges` (lines
173-182), over the rows passing `WHERE loaded_at IS NOT NULL`. -/
def qDateStats (w : Warehouse) :
    Except SqlErr (Option Int × Option Int × Nat) :=
  if w.tableExists then
    let ts := w.rows.filterMap QRow.loaded_at
    .ok (ts.min?, ts.max?, ((ts.map pyDate).eraseDups).length)
  else .error .tableMissing

/-- Python `round(x, 2)` (half-to-even), computed exactly on ℚ. -/
def pyRoundHalfEven (x : ℚ) : Int :=
  let f := ⌊x⌋
  let r := x - (f : ℚ)
  if r < 1 / 2 then f
  else if 1 / 2 < r then f + 1
  else if f % 2 = 0 then f else f + 1

def round2 (x : ℚ) : ℚ := ((pyRoundHalfEven (x * 100) : ℚ)) / 100

/-- Abstract rendering of a numeric detail (`str` / f-string formatting of
the Python value). -/
def showQ (x : ℚ) : String := toString x

/-- Abstract rendering of a `datetime` detail (`str(last_load)` etc.). -/
def showTime (t : Int) : String := toString t

/-- Python value-equality test `value == 0` against a possibly-None SQL
aggregate: `None == 0` is `False`. -/
def pyEqZero : Option Nat → Bool
  | some n => n == 0
  | none => false

/-- `int(value)` on an aggregate that is non-NULL whenever it is evaluated
(the `none` case is unreachable under the guards that precede it). -/
def intOf : Option Nat → Int
  | some n => (n : Int)
  | none => 0

/-- The `try` body of `check_data_freshness` (lines 54-83).  A raised
exception carries the counters mutated so far.  Note that the
`if last_load is None` branch at lines 63-65 is dead: when the single
aggregate cell is NULL the generator in `max(r[0] for r in result if r[0])`
at line 61 is empty and `max()` has already raised `ValueError`. -/
def check_data_freshness_body (w : Warehouse) (now : Int) (maxHoursOld : Int)
    (c : Counters) : Counters × Except PyErr CheckResult :=
  match qMaxLoadedAt w with
  | .error e => (c, .error (.sql e))
  | .ok none => (c, .error .valueEmptyMax)
  | .ok (some lastLoad) =>
    let hoursOld : ℚ := ((now - lastLoad : Int) : ℚ) / 3600
    if hoursOld ≤ (maxHoursOld : ℚ) then
      (⟨c.passed + 1, c.failed⟩,
       .ok ⟨"Data Freshness", .PASS,
         [("last_load", .s (showTime lastLoad)),
          ("hours_old", .q (round2 hoursOld))]⟩)
    else
      (⟨c.passed, c.failed + 1⟩,
       .ok ⟨"Data Freshness", .FAIL,
         [("reason", .s ("Data is " ++ showQ (round2 hoursOld) ++
            " hours old (max: " ++ toString maxHoursOld ++ ")"))]⟩)

/-- The `except Exception` handler shared by all four checks: log, count a
failure, return an ERROR result. -/
def handleErr (checkName : String) (e : PyErr) : CheckResult :=
  ⟨checkName, .ERROR, [("error", .s (errMessage e))]⟩

/-- `check_data_freshness` (lines 44-88): body plus handler. -/
def check_data_freshness (w : Warehouse) (now : Int) (maxHoursOld : Int)
    (c : Counters) : CheckResult × Counters :=
  match check_data_freshness_body w now maxHoursOld c with
  | (c2, .ok r) => (r, c2)
  | (c2, .error e) =>
    (handleErr "Data Freshness" e, ⟨c2.passed, c2.failed + 1⟩)

/-- The `try` body of `check_record_counts` (lines 97-116). -/
def check_record_counts_body (w : Warehouse) (c : Counters) :
    Counters × Except PyErr CheckResult :=
  match qCountRows w with
  | .error e => (c, .error (.sql e))
  | .ok placesCount =>
    if placesCount > 0 then
      (⟨c.passed + 1, c.failed⟩,
       .ok ⟨"Record Counts", .PASS,
         [("places_records", .i (placesCount : Int)),
          ("total_records", .i (placesCount : Int))]⟩)
    else
      (⟨c.passed, c.failed + 1⟩,
       .ok ⟨"Record Counts", .FAIL, [("reason", .s "No records found")]⟩)

/-- `check_record_counts` (lines 90-121). -/
def check_record_counts (w : Warehouse) (c : Counters) :
    CheckResult × Counters :=
  match check_record_counts_body w c with
  | (c2, .ok r) => (r, c2)
  | (c2, .error e) =>
    (handleErr "Record Counts" e, ⟨c2.passed, c2.failed + 1⟩)

/-- The `try` body of `check_null_values` (lines 130-158).  In the branch
taken when a key column has nulls, the source first increments
`checks_failed` (line 152) and then builds a result dict from the undefined
name `covid_nulls` (lines 156-157), so a `NameError` is raised after the
increment. -/
def check_null_values_body (w : Warehouse) (c : Counters) :
    Counters × Except PyErr CheckResult :=
  match qNullSums w with
  | .error e => (c, .error (.sql e))
  | .ok (s0, s1, s2) =>
    if pyEqZero s0 && pyEqZero s1 then
      (⟨c.passed + 1, c.failed⟩,
       .ok ⟨"Null Values Check", .PASS,
         [("null_states", .i (intOf s0)),
          ("null_counties", .i (intOf s1)),
          ("null_diabetes", .i (intOf s2))]⟩)
    else
      (⟨c.passed, c.failed + 1⟩, .error (.nameUndefined "covid_nulls"))

/-- `check_null_values` (lines 123-163). -/
def check_null_values (w : Warehouse) (c : Counters) :
    CheckResult × Counters :=
  match check_null_values_body w c with
  | (c2, .ok r) => (r, c2)
  | (c2, .error e) =>
    (handleErr "Null Values Check" e, ⟨c2.passed, c2.failed + 1⟩)

/-- The `try` body of `check_date_ranges` (lines 172-203). -/
def check_date_ranges_body (w : Warehouse) (now : Int) (c : Counters) :
    Counters × Except PyErr CheckResult :=
  match qDateStats w with
  | .error e => (c, .error (.sql e))
  | .ok (minDate, maxDate, distinctDates) =>
    match minDate, maxDate with
    | some mn, some mx =>
      let isRecent := Int.fdiv (now - mx) 86400 < 7
      (if isRecent then ⟨c.passed + 1, c.failed⟩ else ⟨c.passed, c.failed + 1⟩,
       .ok ⟨"Date Range Check", if isRecent then .PASS else .FAIL,
         [("min_date", .s (showTime mn)),
          ("max_date", .s (showTime mx)),
          ("distinct_dates", .i (distinctDates : Int))]⟩)
    | _, _ =>
      (⟨c.passed, c.failed + 1⟩,
       .ok ⟨"Date Range Check", .FAIL, [("reason", .s "No date data")]⟩)

/-- `check_date_ranges` (lines 165-208). -/
def check_date_ranges (w : Warehouse) (now : Int) (c : Counters) :
    CheckResult × Counters :=
  match check_date_ranges_body w now c with
  | (c2, .ok r) => (r, c2)
  | (c2, .error e) =>
    (handleErr "Date Range Check" e, ⟨c2.passed, c2.failed + 1⟩)

structure Summary where
  total_checks : Nat
  passed : Nat
  failed : Nat
  status : Status
deriving DecidableEq

structure QualityReport where
  timestamp : Int
  checks : List CheckResult
  summary : Summary
deriving DecidableEq

/-- Embedding of `run_all_checks` (quality_checks.py lines 210-237) on a
fresh `DataQualityChecker` (counters start at 0): run the four checks in
their fixed order, threading the instance counters, then build the summary
from the accumulated tallies; `max_hours_old` keeps its default 24. -/
def run_all_checks (w : Warehouse) (now : Int) : QualityReport :=
  let s1 := check_data_freshness w now 24 ⟨0, 0⟩
  let s2 := check_record_counts w s1.2
  let s3 := check_null_values w s2.2
  let s4 := check_date_ranges w now s3.2
  let checks := [s1.1, s2.1, s3.1, s4.1]
  ⟨now, checks,
   ⟨checks.length, s4.2.passed, s4.2.failed,
    if s4.2.failed = 0 then .PASS else .FAIL⟩⟩

end Quality

namespace Fixtures

/-! Concrete states and inputs used by witnesses and counterexamples. -/

/-- A row whose `stateabbr` key column is NULL (its `loaded_at` is NULL
too, so the freshness and date checks take their no-data paths). -/
def rowNullState : Quality.QRow := ⟨none, some "Dane County", some "9.3", none⟩

/-- A fully populated row loaded at time 0. -/
def rowGood : Quality.QRow := ⟨some "WI", some "Dane County", some "9.3", some 0⟩

/-- Warehouse whose table holds one row with a NULL `stateabbr`. -/
def whNullState : Quality.Warehouse := ⟨true, [rowNullState]⟩

/-- Warehouse whose table holds one clean row. -/
def whGood : Quality.Warehouse := ⟨true, [rowGood]⟩

/-- Warehouse in which `raw.places_county` does not exist. -/
def whMissing : Quality.Warehouse := ⟨false, []⟩

def ts0 : Extract.PyDateTime := ⟨2024, 1, 15, 12, 30, 45⟩

def rowOld : Extract.ExtractedRow Nat := ⟨1, 0, "CDC_PLACES", "d3i6-k6z5"⟩

def rowNew : Extract.ExtractedRow Nat := ⟨2, 100, "CDC_PLACES", "d3i6-k6z5"⟩

/-- A raw-data directory already holding a snapshot whose name collides with
the one `save_raw_data` derives from `ts0`. -/
def fsColliding : Extract.FS Nat := [(Extract.rawFilename ts0, [rowOld])]

/-- A scripted API session: one full page (page size 2), then a terminal
request failure. -/
def respFailing : List (Extract.PageResp Nat) :=
  [.page [10, 11], .failure "HTTPError: 503 Server Error"]

def recA : Loader.RawRecord :=
  [("stateabbr", .s "WI"), ("countyname", .s "Dane County")]

def fileGood : Loader.SnapFile :=
  ⟨"places_county_20240115_123045.json", .arr [recA]⟩

def fileBad : Loader.SnapFile :=
  ⟨"places_county_20240116_000000.json", .malformed⟩

/-- Loader warehouse before any table has been created. -/
def lwEmpty : Loader.LWarehouse := ⟨false, [], []⟩

end Fixtures

end HealthWatch

namespace HealthWatch

namespace Extract

theorem fetchLoop_fst (limit : Nat) (hl : 0 < limit) :
    ∀ rest : List α, (fetchLoop limit rest).1 = rest := by
  suffices H : ∀ (n : Nat) (rest : List α), rest.length = n →
      (fetchLoop limit rest).1 = rest by
    intro rest
    exact H rest.length rest rfl
  intro n
  induction n using Nat.strong_induction_on with
  | _ n ih =>
    intro rest hn
    rw [fetchLoop]
    by_cases hpe : (rest.take limit).length = 0
    · have hr : rest = [] := by
        simp only [List.length_take] at hpe
        have : rest.length = 0 := by omega
        exact List.length_eq_zero.mp this
      simp [hpe, hr]
    · simp only [hpe, dite_false]
      by_cases hlt : (rest.take limit).length < limit
      · have hr : rest.length < limit := by
          simp only [List.length_take] at hlt
          omega
        simp [hlt, hr, List.take_of_length_le (Nat.le_of_lt hr)]
      · simp only [hlt, dite_false]
        have hle : limit ≤ rest.length := by
          simp only [List.length_take] at hlt
          omega
        have hpos : 0 < rest.length := by
          simp only [List.length_take] at hpe
          omega
        have hdec : (rest.drop limit).length < n := by
          simp only [List.length_drop]
          omega
        have := ih (rest.drop limit).length hdec (rest.drop limit) rfl
        simp [this, List.take_append_drop]

theorem fetchLoop_snd (limit : Nat) (hl : 0 < limit) :
    ∀ rest : List α, (fetchLoop limit rest).2 = rest.length / limit + 1 := by
  suffices H : ∀ (n : Nat) (rest : List α), rest.length = n →
      (fetchLoop limit rest).2 = rest.length / limit + 1 by
    intro rest
    exact H rest.length rest rfl
  intro n
  induction n using Nat.strong_induction_on with
  | _ n ih =>
    intro rest hn
    rw [fetchLoop]
    by_cases hpe : (rest.take limit).length = 0
    · have hr : rest = [] := by
        simp only [List.length_take] at hpe
        have : rest.length = 0 := by omega
        exact List.length_eq_zero.mp this
      simp [hpe, hr]
    · simp only [hpe, dite_false]
      by_cases hlt : (rest.take limit).length < limit
      · have hr : rest.length < limit := by
          simp only [List.length_take] at hlt
          omega
        simp [hlt, hr, Nat.div_eq_of_lt hr]
      · simp only [hlt, dite_false]
        have hle : limit ≤ rest.length := by
          simp only [List.length_take] at hlt
          omega
        have hpos : 0 < rest.length := by
          simp only [List.length_take] at hpe
          omega
        have hdec : (rest.drop limit).length < n := by
          simp only [List.length_drop]
          omega
        have hrec := ih (rest.drop limit).length hdec (rest.drop limit) rfl
        simp only [hrec, List.length_drop]
        have := Nat.div_eq_sub_div hl hle
        omega

theorem pagesNeeded_eq (limit n : Nat) (hl : 0 < limit) :
    pagesNeeded limit n = if n % limit = 0 then n / limit else n / limit + 1 := by
  have hmod := Nat.div_add_mod n limit
  have hlt : n % limit < limit := Nat.mod_lt _ hl
  by_cases hr : n % limit = 0
  · have h1 : n + limit - 1 = limit * (n / limit) + (limit - 1) := by omega
    simp only [pagesNeeded, hr, if_true, h1, Nat.mul_add_div hl]
    have : (limit - 1) / limit = 0 := Nat.div_eq_of_lt (by omega)
    omega
  · have h1 : n + limit - 1 = limit * (n / limit + 1) + (n % limit - 1) := by
      rw [Nat.mul_add, Nat.mul_one]
      omega
    simp only [pagesNeeded, hr, if_false, h1, Nat.mul_add_div hl]
    have : (n % limit - 1) / limit = 0 := Nat.div_eq_of_lt (by omega)
    omega

/-- C3: for every sequence of pages the remote API returns for `data`,
`fetch_county_data` returns exactly the concatenation of all pages in
order — i.e. all of `data` — starting at offset 0, advancing by the page
limit after each full page and stopping at the first empty or short page;
the request count is exactly `data.length / limit + 1`, which stays within
one request of the `pagesNeeded` non-empty pages, and the extra request past
the true end of data happens precisely when the result count is an exact
multiple of the limit (a normal terminal condition, not an error). -/
theorem fetch_county_data_pagination (limit : Nat) (data : List α)
    (hl : 0 < limit) :
    (fetch_county_data limit data).records = data ∧
    (fetch_county_data limit data).requests = data.length / limit + 1 ∧
    pagesNeeded limit data.length ≤ (fetch_county_data limit data).requests ∧
    (fetch_county_data limit data).requests ≤
      pagesNeeded limit data.length + 1 ∧
    ((fetch_county_data limit data).requests =
        pagesNeeded limit data.length + 1 ↔ limit ∣ data.length) := by
  have h1 := fetchLoop_fst limit hl data
  have h2 := fetchLoop_snd limit hl data
  have h3 := pagesNeeded_eq limit data.length hl
  have hdvd : limit ∣ data.length ↔ data.length % limit = 0 :=
    Nat.dvd_iff_mod_eq_zero
  by_cases hr : data.length % limit = 0 <;>
    simp only [fetch_county_data, h1, h2, h3, hdvd, hr, if_true, if_false] <;>
    simp_all

/-- Witness for C3: three records fetched at page size 2 (a short last
page: two requests, no request past the end of data). -/
theorem fetch_county_data_pagination_witness :
    (fetch_county_data 2 [10, 20, 30]).records = [10, 20, 30] ∧
    (fetch_county_data 2 [10, 20, 30]).requests = 3 / 2 + 1 ∧
    pagesNeeded 2 3 ≤ (fetch_county_data 2 [10, 20, 30]).requests ∧
    (fetch_county_data 2 [10, 20, 30]).requests ≤ pagesNeeded 2 3 + 1 ∧
    ((fetch_county_data 2 [10, 20, 30]).requests = pagesNeeded 2 3 + 1 ↔
      2 ∣ 3) :=
  fetch_county_data_pagination 2 [10, 20, 30] (by decide)

/-- C5 counterexample: the claim that `save_raw_data` does not silently
overwrite a colliding snapshot is false.  Concretely: the raw directory
already holds a file under the very name derived from `ts0`; the call
nevertheless succeeds (returns the path, raises nothing) and afterwards the
file holds the new content, which differs from the old. -/
theorem save_raw_data_overwrites_counterexample :
    (Fixtures.fsColliding.lookup (rawFilename Fixtures.ts0)).isSome = true ∧
    (save_raw_data Fixtures.fsColliding [Fixtures.rowNew] Fixtures.ts0).2 =
      .ok (rawFilename Fixtures.ts0) ∧
    (save_raw_data Fixtures.fsColliding [Fixtures.rowNew] Fixtures.ts0).1.lookup
      (rawFilename Fixtures.ts0) = some [Fixtures.rowNew] ∧
    [Fixtures.rowNew] ≠ [Fixtures.rowOld] := by
  refine ⟨by decide, rfl, rfl, by decide⟩

/-- C5 amended: `save_raw_data` performs no existence check.  For every
directory state it returns the timestamp-derived path successfully and the
file at that path afterwards holds exactly the records passed in — silently
replacing whatever snapshot was there before. -/
theorem save_raw_data_overwrite_semantics (fs : FS α)
    (df : List (ExtractedRow α)) (ts : PyDateTime) :
    (save_raw_data fs df ts).2 = .ok (rawFilename ts) ∧
    (save_raw_data fs df ts).1.lookup (rawFilename ts) = some df := by
  constructor
  · rfl
  · simp [save_raw_data, setFile, List.lookup]

/-- C6: when any page request fails after retry exhaustion (a failure
response in the script), the whole extraction fails with that error and the
raw-data directory is untouched: no snapshot file is written and the pages
fetched before the failure are discarded. -/
theorem run_extraction_atomicity (limit : Nat)
    (responses : List (PageResp α)) (now : Int) (ts : PyDateTime) (fs : FS α)
    (e : String) (hfail : fetchLoopScripted limit responses = .error e) :
    run_extraction limit responses now ts fs = (fs, .error e) := by
  simp [run_extraction, fetchCountyDf, hfail, Except.map]

/-- Witness for C6: a full page followed by a terminal HTTP failure; the
extraction fails and the (empty) directory stays empty. -/
theorem run_extraction_atomicity_witness :
    run_extraction 2 Fixtures.respFailing 0 Fixtures.ts0 ([] : FS Nat) =
      ([], .error "HTTPError: 503 Server Error") :=
  run_extraction_atomicity 2 Fixtures.respFailing 0 Fixtures.ts0 []
    "HTTPError: 503 Server Error" rfl

end Extract

namespace Loader

theorem mem_dedupFirst (x : String) : ∀ l, x ∈ dedupFirst l ↔ x ∈ l := by
  intro l
  induction l with
  | nil => simp [dedupFirst]
  | cons k ks ih =>
    by_cases hx : x = k
    · simp [dedupFirst, hx]
    · simp [dedupFirst, List.mem_filter, hx, ih]

theorem mem_dfColumns (records : List RawRecord) (x : String) :
    x ∈ dfColumns records ↔ ∃ r ∈ records, x ∈ r.map Prod.fst := by
  simp only [dfColumns, mem_dedupFirst, List.mem_flatten]
  constructor
  · rintro ⟨l, hl, hx⟩
    obtain ⟨r, hr, rfl⟩ := List.mem_map.mp hl
    exact ⟨r, hr, hx⟩
  · rintro ⟨r, hr, hx⟩
    exact ⟨r.map Prod.fst, List.mem_map_of_mem _ hr, hx⟩

theorem mem_addColumn_cols (df : Df) (n : String) (v : JVal) (x : String) :
    x ∈ (addColumn df n v).cols ↔ x ∈ df.cols ∨ x = n := by
  simp only [addColumn]
  by_cases h : n ∈ df.cols
  · simp only [h, if_true]
    constructor
    · exact Or.inl
    · rintro (hx | rfl)
      · exact hx
      · exact h
  · simp [h]

theorem addColumn_rows (df : Df) (n : String) (v : JVal) :
    (addColumn df n v).rows = df.rows.map (fun r => setField r n v) := rfl

/-- C7: loading a snapshot through `load_json_file` when
`raw.places_county` does not yet exist succeeds by creating the table; the
created column set is exactly the field set of the snapshot together with the
`loaded_at` and `source_file` metadata columns, and the created rows are
exactly the records of the snapshot carrying those two metadata fields, so the
snapshot is fully loaded by the creation. -/
theorem load_json_file_creates_table (records : List RawRecord) (now : Int)
    (src : String) (w : LWarehouse) (hex : w.tableExists = false) :
    ∃ w2, load_json_file w (.arr records) now src = .ok w2 ∧
      w2.tableExists = true ∧
      (∀ x, x ∈ w2.tableCols ↔
        ((∃ r ∈ records, x ∈ r.map Prod.fst) ∨
          x = "loaded_at" ∨ x = "source_file")) ∧
      w2.tableRows = records.map (fun r =>
        setField (setField r "loaded_at" (.n now)) "source_file" (.s src)) ∧
      w2.tableRows.length = records.length := by
  refine ⟨⟨true,
    (addColumn (addColumn (mkDf records) "loaded_at" (.n now)) "source_file"
      (.s src)).cols,
    (addColumn (addColumn (mkDf records) "loaded_at" (.n now)) "source_file"
      (.s src)).rows⟩, ?_, rfl, ?_, ?_, ?_⟩
  · simp [load_json_file, parseSnapshot, insertInto, hex, mentionsDoesNotExist]
  · intro x
    simp only [mem_addColumn_cols, mkDf, mem_dfColumns]
    exact or_assoc
  · simp [addColumn_rows, mkDf, List.map_map, Function.comp]
  · simp [addColumn_rows, mkDf]

/-- Witness for C7: one two-field record loaded into a warehouse with no
table. -/
theorem load_json_file_creates_table_witness :
    ∃ w2, load_json_file Fixtures.lwEmpty (.arr [Fixtures.recA]) 0
        "data/raw/places_county_20240115_123045.json" = .ok w2 ∧
      w2.tableExists = true ∧
      (∀ x, x ∈ w2.tableCols ↔
        ((∃ r ∈ [Fixtures.recA], x ∈ r.map Prod.fst) ∨
          x = "loaded_at" ∨ x = "source_file")) ∧
      w2.tableRows = [Fixtures.recA].map (fun r =>
        setField (setField r "loaded_at" (.n 0)) "source_file"
          (.s "data/raw/places_county_20240115_123045.json")) ∧
      w2.tableRows.length = [Fixtures.recA].length :=
  load_json_file_creates_table [Fixtures.recA] 0
    "data/raw/places_county_20240115_123045.json" Fixtures.lwEmpty rfl

theorem load_raw_directory_length (now : Int) :
    ∀ (files : List SnapFile) (w : LWarehouse),
      (load_raw_directory w files now).2.length = files.length := by
  intro files
  induction files with
  | nil => intro w; rfl
  | cons f fs ih => intro w; simp [load_raw_directory, ih]

/-- C8: `load_raw_directory` processes every file of the directory — one
outcome per file, never aborting early — and a file whose load fails (here:
a malformed snapshot, which fails from any warehouse state) leaves the final
warehouse exactly as if that file were absent, so every other loadable file
is still loaded. -/
theorem load_raw_directory_isolates_failures (w : LWarehouse)
    (xs ys : List SnapFile) (f : SnapFile) (now : Int)
    (hmal : f.content = .malformed) (hname : containsPlaces f.name = true) :
    (load_raw_directory w (xs ++ f :: ys) now).1 =
      (load_raw_directory w (xs ++ ys) now).1 ∧
    (load_raw_directory w (xs ++ f :: ys) now).2.length =
      xs.length + 1 + ys.length ∧
    (load_raw_directory w (xs ++ ys) now).2.length = xs.length + ys.length := by
  have hfail : ∀ w2, processFile w2 f now = (w2, .failed f.name) := by
    intro w2
    simp [processFile, hname, hmal, load_json_file, parseSnapshot]
  refine ⟨?_, ?_, ?_⟩
  · induction xs generalizing w with
    | nil => simp [load_raw_directory, hfail]
    | cons x xs ih => simp [load_raw_directory, ih]
  · rw [load_raw_directory_length]
    simp
    omega
  · rw [load_raw_directory_length]
    simp

/-- Witness for C8: a good snapshot followed by a malformed one; the
malformed file is isolated. -/
theorem load_raw_directory_isolates_failures_witness :
    (load_raw_directory Fixtures.lwEmpty
        ([Fixtures.fileGood] ++ Fixtures.fileBad :: []) 0).1 =
      (load_raw_directory Fixtures.lwEmpty ([Fixtures.fileGood] ++ []) 0).1 ∧
    (load_raw_directory Fixtures.lwEmpty
        ([Fixtures.fileGood] ++ Fixtures.fileBad :: []) 0).2.length =
      [Fixtures.fileGood].length + 1 + ([] : List SnapFile).length ∧
    (load_raw_directory Fixtures.lwEmpty ([Fixtures.fileGood] ++ []) 0).2.length =
      [Fixtures.fileGood].length + ([] : List SnapFile).length :=
  load_raw_directory_isolates_failures Fixtures.lwEmpty [Fixtures.fileGood] []
    Fixtures.fileBad 0 rfl (by decide)

/-- C10: `get_record_counts` never raises: for every warehouse state it
returns a mapping; when the count query succeeds the mapping carries the
count under `places_county`, and when the query fails (the table is
missing) the error is swallowed and the empty mapping is returned. -/
theorem get_record_counts_total (w : LWarehouse) :
    (∃ m, get_record_counts w = .ok m) ∧
    (∀ n, countQuery w = .ok n →
      get_record_counts w = .ok [("places_county", n)]) ∧
    (∀ e, countQuery w = .error e → get_record_counts w = .ok []) := by
  rcases hq : countQuery w with e | n <;> simp [get_record_counts, hq]

/-- Witness for C10: a warehouse with no table yields the empty mapping,
raising nothing. -/
theorem get_record_counts_total_witness :
    get_record_counts Fixtures.lwEmpty = .ok [] :=
  (get_record_counts_total Fixtures.lwEmpty).2.2 .tableNotExist rfl

end Loader

namespace Quality

theorem check_data_freshness_name (w : Warehouse) (now maxHoursOld : Int)
    (c : Counters) :
    (check_data_freshness w now maxHoursOld c).1.name = "Data Freshness" := by
  unfold check_data_freshness check_data_freshness_body
  cases qMaxLoadedAt w with
  | error e => simp [handleErr]
  | ok o =>
    cases o with
    | none => simp [handleErr]
    | some t =>
      by_cases hc : ((now : ℚ) - (t : ℚ)) / 3600 ≤ (maxHoursOld : ℚ) <;>
        simp [hc]

theorem check_record_counts_name (w : Warehouse) (c : Counters) :
    (check_record_counts w c).1.name = "Record Counts" := by
  unfold check_record_counts check_record_counts_body
  cases qCountRows w with
  | error e => simp [handleErr]
  | ok n =>
    by_cases hc : n > 0 <;> simp [hc]

theorem check_null_values_name (w : Warehouse) (c : Counters) :
    (check_null_values w c).1.name = "Null Values Check" := by
  unfold check_null_values check_null_values_body
  cases qNullSums w with
  | error e => simp [handleErr]
  | ok s =>
    rcases s with ⟨s0, s1, s2⟩
    by_cases hc : (pyEqZero s0 && pyEqZero s1) = true <;>
      simp [hc, handleErr]

theorem check_date_ranges_name (w : Warehouse) (now : Int) (c : Counters) :
    (check_date_ranges w now c).1.name = "Date Range Check" := by
  unfold check_date_ranges check_date_ranges_body
  cases qDateStats w with
  | error e => simp [handleErr]
  | ok s =>
    rcases s with ⟨mn, mx, d⟩
    cases mn <;> cases mx <;> simp [handleErr]

theorem check_data_freshness_err (w : Warehouse) (now maxHoursOld : Int)
    (c : Counters) (h : w.tableExists = false) :
    (check_data_freshness w now maxHoursOld c).1.status = .ERROR := by
  simp [check_data_freshness, check_data_freshness_body, qMaxLoadedAt, h,
    handleErr]

theorem check_record_counts_err (w : Warehouse) (c : Counters)
    (h : w.tableExists = false) :
    (check_record_counts w c).1.status = .ERROR := by
  simp [check_record_counts, check_record_counts_body, qCountRows, h,
    handleErr]

theorem check_null_values_err (w : Warehouse) (c : Counters)
    (h : w.tableExists = false) :
    (check_null_values w c).1.status = .ERROR := by
  simp [check_null_values, check_null_values_body, qNullSums, h, handleErr]

theorem check_date_ranges_err (w : Warehouse) (now : Int) (c : Counters)
    (h : w.tableExists = false) :
    (check_date_ranges w now c).1.status = .ERROR := by
  simp [check_date_ranges, check_date_ranges_body, qDateStats, h, handleErr]

/-- C4: for every warehouse state, `run_all_checks` returns exactly one
result per registered check, four in the fixed order freshness, record
counts, null values, date ranges; and when a check raises (here: the query
failing because the table is missing, which makes every check body raise),
the exception is caught locally and becomes an ERROR result — the remaining
checks still run and report. -/
theorem run_all_checks_totality (w : Warehouse) (now : Int) :
    (run_all_checks w now).checks.map CheckResult.name =
      ["Data Freshness", "Record Counts", "Null Values Check",
        "Date Range Check"] ∧
    (w.tableExists = false →
      (run_all_checks w now).checks.map CheckResult.status =
        [.ERROR, .ERROR, .ERROR, .ERROR]) := by
  constructor
  · simp [run_all_checks, check_data_freshness_name, check_record_counts_name,
      check_null_values_name, check_date_ranges_name]
  · intro h
    have e1 := fun c => check_data_freshness_err w now 24 c h
    have e2 := fun c => check_record_counts_err w c h
    have e3 := fun c => check_null_values_err w c h
    have e4 := fun c => check_date_ranges_err w now c h
    simp [run_all_checks, e1, e2, e3, e4]

/-- Witness for C4: the warehouse without the monitored table — all four
checks still report, each with status ERROR. -/
theorem run_all_checks_totality_witness :
    (run_all_checks Fixtures.whMissing 0).checks.map CheckResult.name =
      ["Data Freshness", "Record Counts", "Null Values Check",
        "Date Range Check"] ∧
    (run_all_checks Fixtures.whMissing 0).checks.map CheckResult.status =
      [.ERROR, .ERROR, .ERROR, .ERROR] :=
  ⟨(run_all_checks_totality Fixtures.whMissing 0).1,
   (run_all_checks_totality Fixtures.whMissing 0).2 rfl⟩

/-- C9: when the table exists, the freshness check yields PASS exactly when
the age of the most recent `loaded_at` is at most `max_hours_old` hours
(the default passed by `run_all_checks` is 24) and FAIL exactly otherwise;
when there is no row from which to compute the maximum, `max()` raises and
the check yields ERROR, distinct from FAIL. -/
theorem check_data_freshness_spec (w : Warehouse) (now maxHoursOld : Int)
    (c : Counters) (hex : w.tableExists = true) :
    ((w.rows.filterMap QRow.loaded_at).max? = none →
      (check_data_freshness w now maxHoursOld c).1.status = .ERROR) ∧
    (∀ mx, (w.rows.filterMap QRow.loaded_at).max? = some mx →
      (((check_data_freshness w now maxHoursOld c).1.status = .PASS ↔
          ((now : ℚ) - (mx : ℚ)) / 3600 ≤ (maxHoursOld : ℚ)) ∧
        ((check_data_freshness w now maxHoursOld c).1.status = .FAIL ↔
          ¬ ((now : ℚ) - (mx : ℚ)) / 3600 ≤ (maxHoursOld : ℚ)))) := by
  constructor
  · intro hnone
    simp [check_data_freshness, check_data_freshness_body, qMaxLoadedAt, hex,
      hnone, handleErr]
  · intro mx hmx
    by_cases hle : ((now : ℚ) - (mx : ℚ)) / 3600 ≤ (maxHoursOld : ℚ) <;>
      simp [check_data_freshness, check_data_freshness_body, qMaxLoadedAt,
        hex, hmx, hle]

/-- Witness for C9: one row loaded at time 0, checked two hours later with
the default 24-hour threshold — PASS. -/
theorem check_data_freshness_spec_witness :
    (check_data_freshness Fixtures.whGood 7200 24 ⟨0, 0⟩).1.status = .PASS :=
  ((check_data_freshness_spec Fixtures.whGood 7200 24 ⟨0, 0⟩ rfl).2 0
    rfl).1.mpr (by norm_num)

/-- C1 (failing evaluation): on a warehouse whose table holds one row with a
NULL `stateabbr`, the report of `run_all_checks` has `total_checks = 4` but
`passed = 1` and `failed = 4`, so `passed + failed ≠ total_checks`: in the
failing branch of the null check `checks_failed` is incremented once at line 152
and once more by the handler catching the `NameError` raised by the
undefined name `covid_nulls` at line 156.  (The other half of the claim,
status PASS iff `failed == 0`, is how line 233 computes the status.) -/
theorem run_all_checks_summary_miscount :
    (run_all_checks Fixtures.whNullState 0).summary.total_checks = 4 ∧
    (run_all_checks Fixtures.whNullState 0).summary.passed = 1 ∧
    (run_all_checks Fixtures.whNullState 0).summary.failed = 4 ∧
    (run_all_checks Fixtures.whNullState 0).summary.passed +
        (run_all_checks Fixtures.whNullState 0).summary.failed ≠
      (run_all_checks Fixtures.whNullState 0).summary.total_checks := by
  refine ⟨rfl, rfl, rfl, by decide⟩

/-- C2 (failing evaluation): on a warehouse whose table holds one row with a
NULL `stateabbr` — a state the claim says must produce FAIL with the exact
per-column null counts — `check_null_values` instead returns an ERROR
result carrying the `NameError` for the undefined `covid_nulls`, and the
instance failure counter is incremented twice. -/
theorem check_null_values_error_not_fail :
    (check_null_values Fixtures.whNullState ⟨0, 0⟩).1 =
      ⟨"Null Values Check", .ERROR,
        [("error", .s "NameError: name covid_nulls is not defined")]⟩ ∧
    (check_null_values Fixtures.whNullState ⟨0, 0⟩).1.status ≠ .FAIL ∧
    (check_null_values Fixtures.whNullState ⟨0, 0⟩).2 = ⟨0, 2⟩ := by
  refine ⟨rfl, by decide, rfl⟩

end Quality

end HealthWatch

